import Mathlib

/-!
Shallow embedding of `organizing1.py` (AI Innovation Generator).

The program wires three pretrained models behind a form UI.  The embedding
models the repository code faithfully; the third-party model calls
(text-generation pipeline, CLIP inference, pandas describe) appear as
explicit parameters or as functions modelled from their documented
behaviour, clearly marked.  Machine floats of the source are modelled as
exact rationals: every claim settled here is about list shape, ordering,
string construction and control flow, none about float rounding error.
-/

/-- Python `str.capitalize`: first character upper-cased, all remaining
characters lower-cased (exact for the ASCII data this program handles). -/
def pyCapitalize (s : String) : String :=
  match s.data with
  | [] => ""
  | c :: cs => String.mk (c.toUpper :: cs.map Char.toLower)

/-- Python `str.strip()`: remove leading and trailing whitespace characters. -/
def pyStrip (s : String) : String :=
  String.mk (((s.data.dropWhile Char.isWhitespace).reverse.dropWhile
      Char.isWhitespace).reverse)

/-! ## Model loading (`load_models`, lines 21-49)

The source loads, inside one `try`, the text-generation pipeline, the CLIP
model and the CLIP processor, in that order; on any raised exception it
shows a user-visible error message and calls `st.stop()`, which aborts the script run
before the UI below is ever built.  Each acquisition is embedded as an
`Except String` value supplied by the environment. -/

/-- Result of startup: either all three handles, or a fatal user-visible
error after which no request is served.  There is no constructor carrying
a strict subset of the handles. -/
inductive StartupResult (α β γ : Type) where
  | ok (text_gen : α) (clip_model : β) (clip_processor : γ)
  | fatal (msg : String)
deriving DecidableEq

/-- Embedding of `load_models`: sequential acquisition inside one `try`;
the first failure reaches the shared handler, which surfaces
`"Error loading models: ..."` and stops startup. -/
def load_models {α β γ : Type} (load_text_gen : Except String α)
    (load_clip_model : Except String β) (load_clip_processor : Except String γ) :
    StartupResult α β γ :=
  match load_text_gen with
  | Except.error e => StartupResult.fatal ("Error loading models: " ++ e)
  | Except.ok t =>
    match load_clip_model with
    | Except.error e => StartupResult.fatal ("Error loading models: " ++ e)
    | Except.ok m =>
      match load_clip_processor with
      | Except.error e => StartupResult.fatal ("Error loading models: " ++ e)
      | Except.ok p => StartupResult.ok t m p

/-! ## Innovation generator (`generate_innovation`, lines 57-81) -/

/-- The arguments `generate_innovation` passes to the `text_generator`
pipeline call. -/
structure GenCall where
  prompt : String
  max_length : Nat
  num_return_sequences : Nat
  temperature : ℚ
  top_p : ℚ
deriving DecidableEq

/-- The `structured_prompt` f-string of `generate_innovation`. -/
def structured_prompt (prompt context : String) : String :=
  "Context: " ++ pyCapitalize context ++ ".\n" ++
  "Problem: " ++ prompt ++ ".\n" ++
  "Provide a detailed, creative, and practical solution to the problem.\n" ++
  "Describe its real-world applications and potential benefits."

/-- The exact pipeline invocation made by `generate_innovation`. -/
def generate_innovation_call (prompt context : String) : GenCall :=
  { prompt := structured_prompt prompt context
    max_length := 200
    num_return_sequences := 1
    temperature := 7/10
    top_p := 19/20 }

/-- Embedding of `generate_innovation`.  The pipeline is a parameter
mapping the call to either a raised exception (`Except.error`) or the list
of `generated_text` fields of its outputs.  The body indexes `outputs[0]`
and strips it; an empty output list raises `IndexError`, which the same
`except` handler catches; every caught exception yields `None`. -/
def generate_innovation (prompt context : String)
    (text_generator : GenCall → Except String (List String)) : Option String :=
  match text_generator (generate_innovation_call prompt context) with
  | Except.ok (t :: _) => some (pyStrip t)
  | Except.ok [] => none
  | Except.error _ => none

/-! ## Image concept ranker (`analyze_image`, lines 83-104) -/

/-- The fixed 10-item concept vocabulary of `analyze_image`, in source
order. -/
def image_concepts : List String :=
  ["healthcare", "education", "sustainability", "robotics",
   "smart agriculture", "business innovation", "AI assistants",
   "wearable technology", "gaming", "urban development"]

/-- The `concept_scores` local of `analyze_image`:
`sorted(zip(concepts, probs), key=lambda x: x[1], reverse=True)`.
Python `sorted` is a stable sort; descending order with stability is the
stable sort under the total preorder `b.2 ≤ a.2`, embedded here with a
stable sorting algorithm under that relation. -/
def concept_scores (probs : List ℚ) : List (String × ℚ) :=
  (image_concepts.zip probs).insertionSort (fun a b => b.2 ≤ a.2)

/-- Embedding of `analyze_image` after a successful model call: the CLIP
call itself (logits, softmax, squeeze, tolist) is external and enters as
the probability list `probs`; the repository code zips, sorts and
truncates to the top 3. -/
def analyze_image (probs : List ℚ) : List (String × ℚ) :=
  (concept_scores probs).take 3

/-- The inference path of `analyze_image` seen from an image: fixed model
weights are a fixed function `clip` from images to the softmax probability
vector; the source wraps inference in `torch.no_grad()` and consults no
random source. -/
def analyze_image_run {Img : Type} (clip : Img → List ℚ) (image : Img) :
    List (String × ℚ) :=
  analyze_image (clip image)

/-! ## Random concept picker (`generate_random_concept`, lines 121-151) -/

/-- One entry of the fixed concept list. -/
structure RandomConcept where
  idea : String
  use_case : String
deriving DecidableEq

/-- The fixed 5-entry list inside `generate_random_concept`, in source
order. -/
def random_concepts : List RandomConcept :=
  [⟨"AI-powered IoT sensors to optimize energy usage in smart homes.",
    "Reduces energy bills by up to 40% while ensuring sustainability."⟩,
   ⟨"AR glasses for real-time translation during conversations.",
    "Breaks language barriers, enabling seamless global communication."⟩,
   ⟨"Wearable devices that monitor mental health and provide guided therapy sessions.",
    "Helps individuals manage stress and anxiety proactively."⟩,
   ⟨"Personalized e-learning platforms using adaptive AI to match individual learning styles.",
    "Improves student outcomes and engagement by 50%."⟩,
   ⟨"Blockchain-based food traceability system.",
    "Ensures food safety by tracking the origin and quality of produce."⟩]

/-- Module-level names bound by the import statements at the top of
`organizing1.py` (`st`, `pipeline`, `CLIPProcessor`, `CLIPModel`, `Image`,
`pd`, `torch`, `traceback`).  No other module is imported. -/
def module_imports : List String :=
  ["st", "pipeline", "CLIPProcessor", "CLIPModel", "Image", "pd", "torch",
   "traceback"]

/-- Embedding of `generate_random_concept`.  The body evaluates
`random.choice(concepts)`: Python resolves the free name `random` at call
time, raising `NameError` when it is unbound.  `rng` stands for the random
draw the interpreter would make if the name resolved (index modulo the
list length, uniform selection). -/
def generate_random_concept (rng : Nat) : Except String RandomConcept :=
  if "random" ∈ module_imports then
    Except.ok (random_concepts.getD (rng % random_concepts.length) ⟨"", ""⟩)
  else
    Except.error "NameError: name random is not defined"

/-! ## Tabular summarizer (`analyze_data`, lines 106-119)

A pandas dataframe read from a CSV has one dtype per column: a column is
numeric exactly when every value parses as a number, otherwise it is an
object (string) column.  The embedding records each column with its dtype
directly. -/

/-- The values of one dataframe column, with its inferred dtype. -/
inductive ColData where
  | nums (xs : List ℚ)
  | strs (xs : List String)
deriving DecidableEq

/-- Number of values in a column. -/
def ColData.len : ColData → Nat
  | nums xs => xs.length
  | strs xs => xs.length

/-- A named dataframe column. -/
structure Col where
  name : String
  data : ColData
deriving DecidableEq

/-- Numeric-dtype test for a column. -/
def Col.isNumeric (c : Col) : Bool :=
  match c.data with
  | ColData.nums _ => true
  | ColData.strs _ => false

/-- A dataframe: its columns in order. -/
structure DataFrame where
  cols : List Col
deriving DecidableEq

/-- `df.shape[0]`: the common length of the columns (0 for no columns). -/
def DataFrame.nrows (df : DataFrame) : Nat :=
  match df.cols with
  | [] => 0
  | c :: _ => c.data.len

/-- `df.columns` as a list of names, in original order. -/
def DataFrame.columns (df : DataFrame) : List String :=
  df.cols.map Col.name

/-- A value inside the statistics mapping.  Standard deviation is kept in
exact form as the square root of the (ddof = 1) variance, so the
definition stays executable over ℚ; `nan` covers the degenerate counts
where pandas reports NaN. -/
inductive StatVal where
  | rat (q : ℚ)
  | sqrt (q : ℚ)
  | str (s : String)
  | nan
deriving DecidableEq

/-- Modelled from the documented numpy linear-interpolation percentile on
already sorted data, as used by `describe` for the quartile rows. -/
def percentileLinear (sorted : List ℚ) (p : ℚ) : StatVal :=
  match sorted with
  | [] => StatVal.nan
  | _ :: _ =>
    let h : ℚ := (sorted.length - 1 : Nat) * p
    let lo : Nat := (⌊h⌋).toNat
    let frac : ℚ := h - lo
    let a := sorted.getD lo 0
    let b := sorted.getD (lo + 1) a
    StatVal.rat (a + frac * (b - a))

/-- Modelled from pandas `describe` for one numeric column: count, mean,
std (ddof = 1), min, quartiles, max. -/
def describeNumeric (xs : List ℚ) : List (String × StatVal) :=
  let n := xs.length
  let sorted := xs.mergeSort (fun a b => decide (a ≤ b))
  let mean : ℚ := xs.sum / n
  [("count", StatVal.rat n),
   ("mean", if n = 0 then StatVal.nan else StatVal.rat mean),
   ("std", if n < 2 then StatVal.nan else
      StatVal.sqrt ((xs.map (fun x => (x - mean) ^ 2)).sum / (n - 1 : Nat))),
   ("min", match sorted.head? with
     | some q => StatVal.rat q
     | none => StatVal.nan),
   ("25%", percentileLinear sorted (1/4)),
   ("50%", percentileLinear sorted (1/2)),
   ("75%", percentileLinear sorted (3/4)),
   ("max", match sorted.getLast? with
     | some q => StatVal.rat q
     | none => StatVal.nan)]

/-- Multiplicity of a value in an object column. -/
def countOcc (xs : List String) (v : String) : Nat :=
  (xs.filter (fun y => y == v)).length

/-- Modelled from pandas `describe` for one object column: count, unique,
top, freq.  Among equally frequent values the upstream tie order is
unspecified; the model takes the first occurrence. -/
def describeObject (xs : List String) : List (String × StatVal) :=
  let uniq := xs.eraseDups
  let freqs := uniq.map (fun v => (v, countOcc xs v))
  let maxfreq := (freqs.map Prod.snd).foldr max 0
  [("count", StatVal.rat xs.length),
   ("unique", StatVal.rat uniq.length),
   ("top", match (freqs.filter (fun pr => pr.2 == maxfreq)).head? with
     | some pr => StatVal.str pr.1
     | none => StatVal.nan),
   ("freq", if xs.isEmpty then StatVal.nan else StatVal.rat maxfreq)]

/-- Statistics for one column according to its dtype. -/
def Col.describe (c : Col) : List (String × StatVal) :=
  match c.data with
  | ColData.nums xs => describeNumeric xs
  | ColData.strs xs => describeObject xs

/-- Modelled from pandas `DataFrame.describe().to_dict()` with default
arguments: raises on a dataframe without columns; restricts to the
numeric columns when any exists; otherwise describes the object columns.
The outer association list keeps the column order of the dataframe. -/
def DataFrame.describe (df : DataFrame) :
    Except String (List (String × List (String × StatVal))) :=
  if df.cols.isEmpty then
    Except.error "ValueError: Cannot describe a DataFrame without columns"
  else if (df.cols.filter Col.isNumeric).isEmpty then
    Except.ok (df.cols.map (fun c => (c.name, c.describe)))
  else
    Except.ok ((df.cols.filter Col.isNumeric).map (fun c => (c.name, c.describe)))

/-- The `summary` f-string of `analyze_data`. -/
def summary_text (df : DataFrame) : String :=
  "The dataset contains **" ++ toString df.nrows ++ " rows** and **" ++
    toString df.cols.length ++ " columns**."

/-- The `insights` f-string of `analyze_data`. -/
def insights_text (df : DataFrame) : String :=
  "Key columns: " ++ String.intercalate ", " df.columns

/-- The fixed `use_case` advisory constant of `analyze_data` (two adjacent
source literals, concatenated). -/
def advisory_text : String :=
  "Based on these insights, predictive analytics models, trend analysis, or dashboards " ++
  "can be created to drive business or operational improvements."

/-- Embedding of `analyze_data`.  Inside the `try`, `summary` and
`insights` are total string constructions and `df.describe()` is the
fallible call; the `except` arm returns `(None, None, None, None)`. -/
def analyze_data (df : DataFrame) :
    Option String × Option String ×
      Option (List (String × List (String × StatVal))) × Option String :=
  match df.describe with
  | Except.ok stats =>
      (some (summary_text df), some (insights_text df), some stats,
       some advisory_text)
  | Except.error _ => (none, none, none, none)

/-! ## UI rendering for Image mode (lines 189-191) -/

/-- Round `q * 10000` half to even (the rounding of Python fixed point
formatting; exact for the nonnegative probabilities rendered here),
computed on the reduced numerator and denominator. -/
def roundHalfEven4 (q : ℚ) : ℤ :=
  let m := q.num * 10000
  let d : ℤ := q.den
  let fl := Int.fdiv m d
  let r2 := 2 * (m - fl * d)
  if r2 < d then fl
  else if d < r2 then fl + 1
  else if fl % 2 = 0 then fl else fl + 1

/-- Python `f"{score:.4f}"`: fixed point with exactly 4 fractional
digits. -/
def format4 (q : ℚ) : String :=
  let n := roundHalfEven4 q
  let sign := if n < 0 then "-" else ""
  let m := n.natAbs
  let fracStr := toString (m % 10000)
  sign ++ toString (m / 10000) ++ "." ++
    String.mk (List.replicate (4 - fracStr.length) '0') ++ fracStr

/-- The row the Image branch writes for one (label, score) pair:
`st.write(f"- **{label.capitalize()}** — Probability: {score:.4f}")`. -/
def render_concept_row (label : String) (score : ℚ) : String :=
  "- **" ++ pyCapitalize label ++ "** — Probability: " ++ format4 score

/-- The rows the Image branch writes after a successful `analyze_image`. -/
def image_mode_rows (scores : List (String × ℚ)) : List String :=
  scores.map (fun ls => render_concept_row ls.1 ls.2)

/-! ## Helper lemmas -/

theorem head_dropWhile_false (p : Char → Bool) :
    ∀ (l : List Char) (a : Char), (l.dropWhile p).head? = some a → p a = false := by
  intro l
  induction l with
  | nil => intro a h; simp [List.dropWhile] at h
  | cons x xs ih =>
    intro a h
    by_cases hx : p x = true
    · rw [List.dropWhile_cons, if_pos hx] at h
      exact ih a h
    · rw [List.dropWhile_cons, if_neg hx] at h
      simp only [List.head?_cons, Option.some.injEq] at h
      rw [← h]
      exact Bool.eq_false_iff.mpr hx

theorem getLast_dropWhile_cases (p : Char → Bool) :
    ∀ (l : List Char) (a : Char), (l.dropWhile p).getLast? = some a →
      p a = false ∨ l.getLast? = some a := by
  intro l
  induction l with
  | nil => intro a h; simp [List.dropWhile] at h
  | cons x xs ih =>
    intro a h
    by_cases hx : p x = true
    · rw [List.dropWhile_cons, if_pos hx] at h
      rcases ih a h with h1 | h2
      · exact Or.inl h1
      · right
        cases xs with
        | nil => simp at h2
        | cons y ys => rw [List.getLast?_cons_cons]; exact h2
    · rw [List.dropWhile_cons, if_neg hx] at h
      exact Or.inr h

theorem pyStrip_head_not_white (s : String) (a : Char)
    (h : (pyStrip s).data.head? = some a) : a.isWhitespace = false := by
  unfold pyStrip at h
  rw [List.head?_reverse] at h
  rcases getLast_dropWhile_cases Char.isWhitespace _ a h with h1 | h2
  · exact h1
  · rw [List.getLast?_reverse] at h2
    exact head_dropWhile_false Char.isWhitespace _ a h2

theorem pyStrip_last_not_white (s : String) (a : Char)
    (h : (pyStrip s).data.getLast? = some a) : a.isWhitespace = false := by
  unfold pyStrip at h
  rw [List.getLast?_reverse] at h
  exact head_dropWhile_false Char.isWhitespace _ a h

instance : IsTotal (String × ℚ) (fun a b : String × ℚ => b.2 ≤ a.2) :=
  ⟨fun a b => le_total b.2 a.2⟩

instance : IsTrans (String × ℚ) (fun a b : String × ℚ => b.2 ≤ a.2) :=
  ⟨fun _ _ _ hab hbc => hbc.trans hab⟩

theorem concept_scores_length (probs : List ℚ) (h : probs.length = 10) :
    (concept_scores probs).length = 10 := by
  unfold concept_scores
  rw [List.length_insertionSort, List.length_zip, h]
  rfl

theorem analyze_image_length (probs : List ℚ) (h : probs.length = 10) :
    (analyze_image probs).length = 3 := by
  unfold analyze_image
  rw [List.length_take, concept_scores_length probs h]
  rfl

theorem describe_ok (df : DataFrame) (h : df.cols ≠ []) :
    ∃ stats, df.describe = Except.ok stats := by
  unfold DataFrame.describe
  rw [if_neg (by simpa [List.isEmpty_iff] using h)]
  by_cases hn : (df.cols.filter Col.isNumeric).isEmpty = true
  · rw [if_pos hn]; exact ⟨_, rfl⟩
  · rw [if_neg hn]; exact ⟨_, rfl⟩

/-! ## Claim theorems -/

/-- C1: the claim states `generate_random_concept` is a pure, total
function over the fixed 5-entry list that never raises.  On the code as
written every invocation instead raises `NameError`, because the module
never imports `random` before evaluating `random.choice(concepts)`; the
spec itself records this as a latent defect and names uniform selection
as the intent.  This theorem evaluates the embedded code at every
possible random draw: the error branch is always taken. -/
theorem generate_random_concept_raises (rng : Nat) :
    generate_random_concept rng =
      Except.error "NameError: name random is not defined" := by
  rfl

/-- C2: for every probability vector the model call can return (10 entries,
one per vocabulary item), `analyze_image` returns exactly 3 pairs, each
label drawn from the fixed vocabulary, sorted by probability descending;
and the sort is stable: any two pairs in descending (in particular tied)
probability order that appear in vocabulary order in the zipped input
appear in that same order in the sorted `concept_scores`, of which the
result is the 3-element prefix. -/
theorem analyze_image_top3 (probs : List ℚ) (h : probs.length = 10) :
    (analyze_image probs).length = 3 ∧
    (∀ pr ∈ analyze_image probs, pr.1 ∈ image_concepts) ∧
    List.Pairwise (fun a b : String × ℚ => b.2 ≤ a.2) (analyze_image probs) ∧
    (∀ a b : String × ℚ, b.2 ≤ a.2 → [a, b].Sublist (image_concepts.zip probs) →
      [a, b].Sublist (concept_scores probs)) := by
  refine ⟨analyze_image_length probs h, ?_, ?_, ?_⟩
  · intro pr hpr
    have h1 : pr ∈ (image_concepts.zip probs).insertionSort
        (fun a b : String × ℚ => b.2 ≤ a.2) := List.take_subset 3 _ hpr
    have h2 : pr ∈ image_concepts.zip probs :=
      (List.mem_insertionSort _).mp h1
    exact (List.of_mem_zip (a := pr.1) (b := pr.2) (by simpa using h2)).1
  · have hs := List.sorted_insertionSort (fun a b : String × ℚ => b.2 ≤ a.2)
      (image_concepts.zip probs)
    exact List.Pairwise.sublist (List.take_sublist 3 _) hs
  · intro a b hab hsub
    exact List.pair_sublist_insertionSort hab hsub

/-- C2 witness: a concrete probability vector with a tie between the
vocabulary items at positions 2 and 3 (sustainability, robotics); the
top 3 keep the tied pair in vocabulary order. -/
theorem analyze_image_top3_witness :
    (analyze_image [mkRat 1 10, mkRat 2 10, mkRat 3 10, mkRat 3 10,
        mkRat 1 100, mkRat 1 100, mkRat 1 100, mkRat 1 100, mkRat 1 100,
        mkRat 1 100]).length = 3 ∧
    analyze_image [mkRat 1 10, mkRat 2 10, mkRat 3 10, mkRat 3 10,
        mkRat 1 100, mkRat 1 100, mkRat 1 100, mkRat 1 100, mkRat 1 100,
        mkRat 1 100] =
      [("sustainability", mkRat 3 10), ("robotics", mkRat 3 10),
       ("education", mkRat 2 10)] :=
  ⟨(analyze_image_top3 [mkRat 1 10, mkRat 2 10, mkRat 3 10, mkRat 3 10,
      mkRat 1 100, mkRat 1 100, mkRat 1 100, mkRat 1 100, mkRat 1 100,
      mkRat 1 100] (by decide)).1, by decide⟩

/-- C3: `generate_innovation` invokes the pipeline with maximum length
200, one returned sequence, temperature 0.7 and nucleus cutoff 0.95, on a
structured prompt that contains the capitalized context and the verbatim
problem text followed by the two fixed instruction sentences. -/
theorem generate_innovation_call_spec (p c : String) :
    (generate_innovation_call p c).max_length = 200 ∧
    (generate_innovation_call p c).num_return_sequences = 1 ∧
    (generate_innovation_call p c).temperature = 7/10 ∧
    (generate_innovation_call p c).top_p = 19/20 ∧
    (∃ s t, (generate_innovation_call p c).prompt =
      s ++ pyCapitalize c ++ t) ∧
    (∃ s, (generate_innovation_call p c).prompt =
      s ++ p ++
        (".\n" ++ "Provide a detailed, creative, and practical solution to the problem.\n" ++
         "Describe its real-world applications and potential benefits.")) := by
  refine ⟨rfl, rfl, rfl, rfl, ?_, ?_⟩
  · refine ⟨"Context: ",
      ".\n" ++ "Problem: " ++ p ++ ".\n" ++
        "Provide a detailed, creative, and practical solution to the problem.\n" ++
        "Describe its real-world applications and potential benefits.", ?_⟩
    show structured_prompt p c = _
    unfold structured_prompt
    simp only [String.append_assoc]
  · refine ⟨"Context: " ++ pyCapitalize c ++ ".\n" ++ "Problem: ", ?_⟩
    show structured_prompt p c = _
    unfold structured_prompt
    simp only [String.append_assoc]

/-- C4 counterexample: the claim promises a non-empty string whenever the
model call succeeds, but the code only strips the first output; a
successful call whose text is entirely whitespace yields the empty
string. -/
theorem generate_innovation_empty_success :
    generate_innovation "Reduce plastic waste in oceans" "general"
      (fun _ => Except.ok ["   "]) = some "" := by
  decide

/-- C4 amended: on a raised exception (and on an empty output list, whose
indexing raises inside the same `try`) the function returns `None`; on a
successful call it returns the first returned text stripped of leading
and trailing whitespace — non-empty only when the model output has a
non-whitespace character, which the code does not enforce. -/
theorem generate_innovation_result (p c : String)
    (g : GenCall → Except String (List String)) :
    (∀ e, g (generate_innovation_call p c) = Except.error e →
      generate_innovation p c g = none) ∧
    (g (generate_innovation_call p c) = Except.ok [] →
      generate_innovation p c g = none) ∧
    (∀ t rest, g (generate_innovation_call p c) = Except.ok (t :: rest) →
      generate_innovation p c g = some (pyStrip t) ∧
      (∀ a, (pyStrip t).data.head? = some a → a.isWhitespace = false) ∧
      (∀ a, (pyStrip t).data.getLast? = some a → a.isWhitespace = false)) := by
  refine ⟨?_, ?_, ?_⟩
  · intro e he
    unfold generate_innovation
    rw [he]
  · intro he
    unfold generate_innovation
    rw [he]
  · intro t rest he
    refine ⟨?_, fun a ha => pyStrip_head_not_white t a ha,
      fun a ha => pyStrip_last_not_white t a ha⟩
    unfold generate_innovation
    rw [he]

/-- C4 witness: a successful model call is returned with its surrounding
whitespace stripped. -/
theorem generate_innovation_result_witness :
    generate_innovation "Reduce plastic waste in oceans" "Sustainability"
      (fun _ => Except.ok ["  An ocean cleanup fleet.  "]) =
      some "An ocean cleanup fleet." := by
  have h := (generate_innovation_result "Reduce plastic waste in oceans"
    "Sustainability" (fun _ => Except.ok ["  An ocean cleanup fleet.  "])).2.2
    "  An ocean cleanup fleet.  " [] rfl
  exact h.1.trans (by decide)

/-- C5 counterexample: the claim says the Image branch formats the top-3
probabilities as percentages; the code renders the raw probability with 4
decimal places.  For probability one half the rendered row reads
`0.5000`, not a percentage (no percent sign anywhere in the row). -/
theorem render_concept_row_not_percent :
    render_concept_row "healthcare" (mkRat 1 2) =
      "- **Healthcare** — Probability: 0.5000" ∧
    ¬ '%' ∈ "- **Healthcare** — Probability: 0.5000".data := by
  exact ⟨by decide, by decide⟩

/-- C5 amended: after a successful rank the Image branch renders exactly
3 rows, one per top-3 pair, each showing the capitalized label and the
raw probability in fixed point with 4 fractional digits. -/
theorem image_mode_rows_format (probs : List ℚ) (h : probs.length = 10) :
    (image_mode_rows (analyze_image probs)).length = 3 ∧
    image_mode_rows (analyze_image probs) =
      (analyze_image probs).map (fun pr =>
        "- **" ++ pyCapitalize pr.1 ++ "** — Probability: " ++ format4 pr.2) := by
  refine ⟨?_, rfl⟩
  unfold image_mode_rows
  rw [List.length_map]
  exact analyze_image_length probs h

/-- C5 witness: three rows are rendered for a concrete probability
vector. -/
theorem image_mode_rows_format_witness :
    (image_mode_rows (analyze_image [mkRat 1 10, mkRat 1 10, mkRat 1 10,
        mkRat 1 10, mkRat 1 10, mkRat 1 10, mkRat 1 10, mkRat 1 10,
        mkRat 1 10, mkRat 1 10])).length = 3 :=
  (image_mode_rows_format [mkRat 1 10, mkRat 1 10, mkRat 1 10, mkRat 1 10,
    mkRat 1 10, mkRat 1 10, mkRat 1 10, mkRat 1 10, mkRat 1 10, mkRat 1 10]
    (by decide)).1

/-- C6: on every table on which it succeeds (its only failure is the
describe call, which raises exactly on a table without columns),
`analyze_data` reports the literal shape of the table, the column names
in original order, and the fixed advisory sentence. -/
theorem analyze_data_summary (df : DataFrame) (h : df.cols ≠ []) :
    (analyze_data df).1 = some ("The dataset contains **" ++
      toString df.nrows ++ " rows** and **" ++ toString df.cols.length ++
      " columns**.") ∧
    (analyze_data df).2.1 = some ("Key columns: " ++
      String.intercalate ", " (df.cols.map Col.name)) ∧
    (analyze_data df).2.2.2 = some advisory_text := by
  obtain ⟨stats, hst⟩ := describe_ok df h
  unfold analyze_data
  rw [hst]
  exact ⟨rfl, rfl, rfl⟩

/-- C6 witness: a 5-row, 3-column table yields row count 5 and column
count 3 in the rendered summary. -/
theorem analyze_data_summary_witness :
    (analyze_data ⟨[⟨"a", ColData.nums [1, 2, 3, 4, 5]⟩,
        ⟨"b", ColData.strs ["p", "q", "r", "s", "t"]⟩,
        ⟨"c", ColData.nums [0, 0, 0, 0, 0]⟩]⟩).1 =
      some "The dataset contains **5 rows** and **3 columns**." := by
  have h := analyze_data_summary ⟨[⟨"a", ColData.nums [1, 2, 3, 4, 5]⟩,
    ⟨"b", ColData.strs ["p", "q", "r", "s", "t"]⟩,
    ⟨"c", ColData.nums [0, 0, 0, 0, 0]⟩]⟩ (by decide)
  exact h.1.trans (by decide)

/-- C7: whenever the table has at least one numeric column, the
statistics mapping keys are exactly the numeric column names, in their
original order — non-numeric columns are excluded. -/
theorem analyze_data_stats_numeric (df : DataFrame)
    (h : df.cols.filter Col.isNumeric ≠ []) :
    ∃ stats, (analyze_data df).2.2.1 = some stats ∧
      stats.map Prod.fst = (df.cols.filter Col.isNumeric).map Col.name := by
  have hc : df.cols ≠ [] := by
    intro he
    rw [he] at h
    simp at h
  unfold analyze_data DataFrame.describe
  rw [if_neg (by simpa [List.isEmpty_iff] using hc),
    if_neg (by simpa [List.isEmpty_iff] using h)]
  refine ⟨_, rfl, ?_⟩
  rw [List.map_map]
  rfl

/-- C7 witness: one numeric and one text column yield a statistics
mapping of size 1, keyed by the numeric column. -/
theorem analyze_data_stats_numeric_witness :
    ∃ stats, (analyze_data ⟨[⟨"num", ColData.nums [1, 2, 3]⟩,
        ⟨"txt", ColData.strs ["a", "b", "c"]⟩]⟩).2.2.1 = some stats ∧
      stats.map Prod.fst = ["num"] ∧ stats.length = 1 := by
  obtain ⟨stats, h1, h2⟩ := analyze_data_stats_numeric
    ⟨[⟨"num", ColData.nums [1, 2, 3]⟩, ⟨"txt", ColData.strs ["a", "b", "c"]⟩]⟩
    (by decide)
  refine ⟨stats, h1, h2.trans (by decide), ?_⟩
  have hl := congrArg List.length h2
  rw [List.length_map, List.length_map] at hl
  exact hl.trans (by decide)

/-- C8: the embedded inference path is a pure function of the fixed model
weights (the function `clip`) and the image: the source consults no
random source between receiving the image and returning the ranking
(inference runs under `torch.no_grad()`), so two invocations on the same
image return the same ordered list. -/
theorem analyze_image_run_deterministic {Img : Type} (clip : Img → List ℚ)
    (image₁ image₂ : Img) (h : image₁ = image₂) :
    analyze_image_run clip image₁ = analyze_image_run clip image₂ := by
  rw [h]

/-- C8 witness: two invocations with the same fixed weights and image. -/
theorem analyze_image_run_deterministic_witness :
    analyze_image_run (fun _ : Nat => List.replicate 10 (mkRat 1 10)) 0 =
      analyze_image_run (fun _ : Nat => List.replicate 10 (mkRat 1 10)) 0 :=
  analyze_image_run_deterministic
    (fun _ : Nat => List.replicate 10 (mkRat 1 10)) 0 0 rfl

/-- C9: if any of the three model acquisitions raises, startup ends in a
fatal user-visible error and no combination of handles is ever produced:
there is no degraded mode serving only one capability. -/
theorem load_models_fatal_on_failure {α β γ : Type}
    (lt : Except String α) (lm : Except String β) (lp : Except String γ)
    (h : (∃ e, lt = Except.error e) ∨ (∃ e, lm = Except.error e) ∨
      (∃ e, lp = Except.error e)) :
    (∃ msg, load_models lt lm lp = StartupResult.fatal msg) ∧
    ∀ t m pr, load_models lt lm lp ≠ StartupResult.ok t m pr := by
  rcases lt with e | t
  · exact ⟨⟨"Error loading models: " ++ e, rfl⟩,
      fun t m pr hc => StartupResult.noConfusion hc⟩
  · rcases lm with e | m
    · exact ⟨⟨"Error loading models: " ++ e, rfl⟩,
        fun t m pr hc => StartupResult.noConfusion hc⟩
    · rcases lp with e | p2
      · exact ⟨⟨"Error loading models: " ++ e, rfl⟩,
          fun t m pr hc => StartupResult.noConfusion hc⟩
      · exfalso
        rcases h with ⟨e, he⟩ | ⟨e, he⟩ | ⟨e, he⟩ <;> simp at he

/-- C9 witness: a failing text-generation acquisition is fatal. -/
theorem load_models_fatal_on_failure_witness :
    (∃ msg, load_models (Except.error "boom" : Except String Nat)
        (Except.ok 0 : Except String Nat) (Except.ok 0 : Except String Nat) =
        StartupResult.fatal msg) ∧
    ∀ t m pr, load_models (Except.error "boom" : Except String Nat)
        (Except.ok 0 : Except String Nat) (Except.ok 0 : Except String Nat) ≠
        StartupResult.ok t m pr :=
  load_models_fatal_on_failure _ _ _ (Or.inl ⟨"boom", rfl⟩)

/-- C10: `analyze_data` is all-or-nothing: either all four components of
the returned tuple are present, or the `except` arm returns all four as
`None`; no mixed tuple is possible. -/
theorem analyze_data_all_or_none (df : DataFrame) :
    (∃ s i stats u, analyze_data df = (some s, some i, some stats, some u)) ∨
    analyze_data df = (none, none, none, none) := by
  cases hd : df.describe with
  | error e =>
    right
    unfold analyze_data
    rw [hd]
  | ok stats =>
    left
    have he : analyze_data df = (some (summary_text df),
        some (insights_text df), some stats, some advisory_text) := by
      unfold analyze_data
      rw [hd]
    exact ⟨_, _, _, _, he⟩
